import Mathlib

/-!
Verification of the credit-risk scoring pipeline (`main.py`, class
`CreditRiskModel`). The numeric model uses `ℚ` for every quantity the
code computes with ordinary arithmetic (the Python code uses floats, whose
algebraic behaviour the spec describes up to tolerance), and `ℝ` for the
logistic probability-of-default, which uses `exp`. Fallible steps (missing
dictionary keys, division by zero, empty payment history) return `Except`.
`round(x, 2)` is modelled by `round2` below; Python rounds ties to even
while `round` here rounds them up, and no value evaluated in this file is
a tie, so the two agree everywhere they are compared.
-/

namespace CreditRisk

/-- The ten required fields of a financial statement dictionary. -/
inductive FieldName where
  | current_assets
  | current_liabilities
  | inventory
  | total_debt
  | total_assets
  | ebitda
  | debt_service
  | net_income
  | ebit
  | interest_expense
deriving DecidableEq

/-- The failure kinds of the pipeline (the spec's `InvalidInputError`):
a missing required financial field (Python re-raises the `KeyError`, naming
the field), a zero divisor (Python turns `ZeroDivisionError` into
`ValueError`), and an empty payment history (`ValueError`). -/
inductive CreditError where
  | missingField (field : FieldName)
  | divisionByZero
  | emptyPaymentHistory
deriving DecidableEq

/-- `financial_data`: a dictionary that may or may not hold each of the ten
required fields (a missing key raises in Python). -/
structure FinancialData where
  current_assets : Option ℚ
  current_liabilities : Option ℚ
  inventory : Option ℚ
  total_debt : Option ℚ
  total_assets : Option ℚ
  ebitda : Option ℚ
  debt_service : Option ℚ
  net_income : Option ℚ
  ebit : Option ℚ
  interest_expense : Option ℚ
deriving DecidableEq

/-- The field of `fd` a `FieldName` selects. -/
def fieldValue (fd : FinancialData) : FieldName → Option ℚ
  | .current_assets => fd.current_assets
  | .current_liabilities => fd.current_liabilities
  | .inventory => fd.inventory
  | .total_debt => fd.total_debt
  | .total_assets => fd.total_assets
  | .ebitda => fd.ebitda
  | .debt_service => fd.debt_service
  | .net_income => fd.net_income
  | .ebit => fd.ebit
  | .interest_expense => fd.interest_expense

/-- Reading `financial_data[f]`: a missing key is a `KeyError` naming the
field (re-raised by `calculate_financial_ratios`). -/
def getField (v : Option ℚ) (f : FieldName) : Except CreditError ℚ :=
  match v with
  | some x => .ok x
  | none => .error (.missingField f)

/-- Python division, where a zero divisor raises (`ZeroDivisionError`,
turned into `ValueError` by `calculate_financial_ratios`). -/
def divChecked (a b : ℚ) : Except CreditError ℚ :=
  if b = 0 then .error .divisionByZero else .ok (a / b)

/-- The six derived ratios (`FinancialRatios` of the spec). -/
structure FinancialRatios where
  current_ratio : ℚ
  quick_ratio : ℚ
  debt_ratio : ℚ
  debt_service_coverage : ℚ
  return_on_assets : ℚ
  interest_coverage : ℚ
deriving DecidableEq

/-- `calculate_financial_ratios`: builds the six quotients. Field reads and
divisions happen in Python's evaluation order of the dict literal, so the
first missing key or zero division raises. -/
def calculate_financial_ratios (financial_data : FinancialData) :
    Except CreditError FinancialRatios := do
  let ca ← getField financial_data.current_assets .current_assets
  let cl ← getField financial_data.current_liabilities .current_liabilities
  let current_ratio ← divChecked ca cl
  let inv ← getField financial_data.inventory .inventory
  let quick_ratio ← divChecked (ca - inv) cl
  let td ← getField financial_data.total_debt .total_debt
  let ta ← getField financial_data.total_assets .total_assets
  let debt_ratio ← divChecked td ta
  let eb ← getField financial_data.ebitda .ebitda
  let ds ← getField financial_data.debt_service .debt_service
  let debt_service_coverage ← divChecked eb ds
  let ni ← getField financial_data.net_income .net_income
  let return_on_assets ← divChecked ni ta
  let ebt ← getField financial_data.ebit .ebit
  let ie ← getField financial_data.interest_expense .interest_expense
  let interest_coverage ← divChecked ebt ie
  .ok { current_ratio := current_ratio
        quick_ratio := quick_ratio
        debt_ratio := debt_ratio
        debt_service_coverage := debt_service_coverage
        return_on_assets := return_on_assets
        interest_coverage := interest_coverage }

/-- `self.industry_benchmarks`: the fixed benchmark table. -/
def industry_benchmarks : List (String × ℚ) :=
  [("current_ratio", 2.0), ("quick_ratio", 1.0), ("debt_ratio", 0.5),
   ("debt_service_coverage", 1.25), ("return_on_assets", 0.05)]

/-- `ratios.items()`: the six ratios in the insertion order of the dict
built by `calculate_financial_ratios`. -/
def ratioItems (r : FinancialRatios) : List (String × ℚ) :=
  [("current_ratio", r.current_ratio), ("quick_ratio", r.quick_ratio),
   ("debt_ratio", r.debt_ratio), ("debt_service_coverage", r.debt_service_coverage),
   ("return_on_assets", r.return_on_assets), ("interest_coverage", r.interest_coverage)]

/-- `max(0, min(100, x))`, the saturation applied to every sub-score. -/
def clampScore (x : ℚ) : ℚ := max 0 (min 100 x)

/-- One sub-score of `score_financial_ratios`: `debt_ratio` is the lone
lower-is-better ratio. -/
def scoreOfRatio (name : String) (value benchmark : ℚ) : ℚ :=
  if name = "debt_ratio" then clampScore ((1 - value / benchmark) * 100)
  else clampScore ((value / benchmark) * 100)

/-- `np.mean` of a list of values. -/
def listMean (l : List ℚ) : ℚ := l.sum / l.length

/-- `score_financial_ratios`: scores each ratio that has a benchmark entry
and returns the mean together with the per-ratio breakdown. -/
def score_financial_ratios (ratios : FinancialRatios) : ℚ × List (String × ℚ) :=
  let scores := (ratioItems ratios).filterMap fun p =>
    match industry_benchmarks.lookup p.1 with
    | some benchmark => some (p.1, scoreOfRatio p.1 p.2 benchmark)
    | none => none
  (listMean (scores.map Prod.snd), scores)

/-- One record of the payment history. `days_late` is only read for `LATE`
records in the code, so it is modelled as always present. -/
structure PaymentRecord where
  status : String
  days_late : ℚ
deriving DecidableEq

/-- The `analysis` dictionary returned by `analyze_payment_history`. -/
structure BehavioralAnalysis where
  late_payments : ℕ
  average_days_late : ℚ
  missed_payments : ℕ
  total_payments : ℕ
deriving DecidableEq

/-- One step of the loop over `payment_data`: the accumulator is
(late count, missed count, collected `days_late` values). -/
def tallyStep (acc : ℕ × ℕ × List ℚ) (p : PaymentRecord) : ℕ × ℕ × List ℚ :=
  if p.status = "LATE" then (acc.1 + 1, acc.2.1, acc.2.2 ++ [p.days_late])
  else if p.status = "MISSED" then (acc.1, acc.2.1 + 1, acc.2.2)
  else acc

/-- `analyze_payment_history`: tallies the history, then computes
`behavioral_score = clamp(0, 100, on_time_ratio*100 - average_days_late*0.5)`. -/
def analyze_payment_history (payment_data : List PaymentRecord) :
    Except CreditError (ℚ × BehavioralAnalysis) :=
  if payment_data = [] then .error .emptyPaymentHistory
  else
    let t := payment_data.foldl tallyStep (0, 0, [])
    let late_payments := t.1
    let missed_payments := t.2.1
    let days_late := t.2.2
    let average_days_late := if days_late = [] then 0 else listMean days_late
    let total_payments := payment_data.length
    let on_time_ratio :=
      ((total_payments : ℚ) - late_payments - missed_payments) / total_payments
    let behavioral_score := clampScore (on_time_ratio * 100 - average_days_late * 0.5)
    .ok (behavioral_score,
      { late_payments := late_payments
        average_days_late := average_days_late
        missed_payments := missed_payments
        total_payments := total_payments })

/-- `market_data`: the four raw market indicators. -/
structure MarketData where
  industry_growth_rate : ℚ
  market_share : ℚ
  industry_risk_score : ℚ
  economic_indicator : ℚ
deriving DecidableEq

/-- The `market_analysis` breakdown. -/
structure MarketAnalysis where
  industry_growth : ℚ
  market_position : ℚ
  industry_risk : ℚ
  economic_conditions : ℚ
deriving DecidableEq

/-- `_normalize_score`: linear normalization of `value` from
`[min_val, max_val]` onto `[0, 100]`, saturated at both ends. -/
def normalize_score (value min_val max_val : ℚ) : ℚ :=
  max 0 (min 100 (((value - min_val) / (max_val - min_val)) * 100))

/-- `assess_market_conditions`: normalizes the four indicators over their
fixed ranges and returns the mean with the breakdown. -/
def assess_market_conditions (market_data : MarketData) : ℚ × MarketAnalysis :=
  let a : MarketAnalysis :=
    { industry_growth := normalize_score market_data.industry_growth_rate (-5) 15
      market_position := normalize_score market_data.market_share 0 30
      industry_risk := normalize_score market_data.industry_risk_score 100 0
      economic_conditions := normalize_score market_data.economic_indicator (-10) 10 }
  (listMean [a.industry_growth, a.market_position, a.industry_risk, a.economic_conditions], a)

/-- `qualitative_data`: the four qualitative inputs. -/
structure QualitativeData where
  management_years : ℚ
  business_model_score : ℚ
  competitive_position_score : ℚ
  compliance_score : ℚ
deriving DecidableEq

/-- The `qualitative_analysis` breakdown. -/
structure QualitativeAnalysis where
  management_experience : ℚ
  business_model : ℚ
  competitive_position : ℚ
  regulatory_compliance : ℚ
deriving DecidableEq

/-- `evaluate_qualitative_factors`: normalizes `management_years` over
`[0, 20]`; the other three sub-scores pass through unmodified. -/
def evaluate_qualitative_factors (qualitative_data : QualitativeData) :
    ℚ × QualitativeAnalysis :=
  let a : QualitativeAnalysis :=
    { management_experience := normalize_score qualitative_data.management_years 0 20
      business_model := qualitative_data.business_model_score
      competitive_position := qualitative_data.competitive_position_score
      regulatory_compliance := qualitative_data.compliance_score }
  (listMean [a.management_experience, a.business_model,
             a.competitive_position, a.regulatory_compliance], a)

/-- `self.risk_thresholds`. -/
structure RiskThresholds where
  low : ℚ
  medium : ℚ
  high : ℚ

/-- The fixed thresholds `{LOW: 80, MEDIUM: 60, HIGH: 40}`. -/
def risk_thresholds : RiskThresholds := { low := 80, medium := 60, high := 40 }

/-- `generate_risk_rating`: descending inclusive lower-bound thresholds. -/
def generate_risk_rating (score : ℚ) : String :=
  if risk_thresholds.low ≤ score then "LOW RISK"
  else if risk_thresholds.medium ≤ score then "MEDIUM RISK"
  else if risk_thresholds.high ≤ score then "HIGH RISK"
  else "VERY HIGH RISK"

/-- `self.weights`. -/
structure Weights where
  financial_score : ℚ
  behavioral_score : ℚ
  market_score : ℚ
  qualitative_score : ℚ

/-- The fixed weights (sum to 1). -/
def weights : Weights :=
  { financial_score := 0.35, behavioral_score := 0.25,
    market_score := 0.20, qualitative_score := 0.20 }

/-- The weighted total score computed in `assess_credit_risk`. -/
def totalScore (financial_score behavioral_score market_score qualitative_score : ℚ) : ℚ :=
  financial_score * weights.financial_score +
  behavioral_score * weights.behavioral_score +
  market_score * weights.market_score +
  qualitative_score * weights.qualitative_score

/-- Python's `round(x, 2)` (ties rounded up here; see the file comment). -/
def round2 (x : ℚ) : ℚ := (round (x * 100) : ℚ) / 100

/-- The rounded component scores stored in the assessment. -/
structure ComponentScores where
  financial_score : ℚ
  behavioral_score : ℚ
  market_score : ℚ
  qualitative_score : ℚ
deriving DecidableEq

/-- The assessment record built by `assess_credit_risk`. `assessment_date`
(wall-clock) is out of scope, and the real-valued `probability_of_default`
field is modelled by `pd_reported` applied to the unrounded total score. -/
structure Assessment where
  client_name : String
  total_score : ℚ
  risk_rating : String
  component_scores : ComponentScores
  financial_analysis : List (String × ℚ)
  financial_ratios : FinancialRatios
  behavioral_analysis : BehavioralAnalysis
  market_analysis : MarketAnalysis
  qualitative_analysis : QualitativeAnalysis
deriving DecidableEq

/-- `assess_credit_risk`: the primary entry point. The stored `total_score`
and component scores are rounded to two decimals; `risk_rating` is computed
from the unrounded total. -/
def assess_credit_risk (client_name : String) (financial_data : FinancialData)
    (payment_data : List PaymentRecord) (market_data : MarketData)
    (qualitative_data : QualitativeData) : Except CreditError Assessment := do
  let financial_ratios ← calculate_financial_ratios financial_data
  let fs := score_financial_ratios financial_ratios
  let bs ← analyze_payment_history payment_data
  let ms := assess_market_conditions market_data
  let qs := evaluate_qualitative_factors qualitative_data
  let total_score := totalScore fs.1 bs.1 ms.1 qs.1
  let risk_rating := generate_risk_rating total_score
  .ok { client_name := client_name
        total_score := round2 total_score
        risk_rating := risk_rating
        component_scores :=
          { financial_score := round2 fs.1, behavioral_score := round2 bs.1,
            market_score := round2 ms.1, qualitative_score := round2 qs.1 }
        financial_analysis := fs.2
        financial_ratios := financial_ratios
        behavioral_analysis := bs.2
        market_analysis := ms.2
        qualitative_analysis := qs.2 }

/-- `_generate_recommendation`: the fixed recommendation string, selected
from the assessment's stored (rounded) `total_score`. -/
def generate_recommendation_text (assessment : Assessment) : String :=
  if risk_thresholds.low ≤ assessment.total_score then
    "Recommended for approval with standard terms and conditions."
  else if risk_thresholds.medium ≤ assessment.total_score then
    "Recommended for approval with enhanced monitoring and possible additional collateral requirements."
  else if risk_thresholds.high ≤ assessment.total_score then
    "Recommended for approval only with substantial collateral and restrictive covenants."
  else
    "Not recommended for approval under current conditions."

/-- The recommendation string the report pairs with each risk-rating tier
(used to state that recommendation and rating select the same tier). -/
def recommendation_of_rating (rating : String) : String :=
  if rating = "LOW RISK" then
    "Recommended for approval with standard terms and conditions."
  else if rating = "MEDIUM RISK" then
    "Recommended for approval with enhanced monitoring and possible additional collateral requirements."
  else if rating = "HIGH RISK" then
    "Recommended for approval only with substantial collateral and restrictive covenants."
  else
    "Not recommended for approval under current conditions."

/-- `calculate_probability_of_default`: the logistic transform, over `ℝ`. -/
noncomputable def calculate_probability_of_default (total_score : ℝ) : ℝ :=
  1 / (1 + Real.exp (-0.1 * (100 - total_score)))

/-- `round(x, 2)` over `ℝ` (the PD is a float in the code). -/
noncomputable def roundR2 (x : ℝ) : ℝ := (round (x * 100) : ℝ) / 100

/-- The `probability_of_default` value stored in the assessment:
`round(pd * 100, 2)`. -/
noncomputable def pd_reported (total_score : ℝ) : ℝ :=
  roundR2 (calculate_probability_of_default total_score * 100)

/-- The example `financial_data` of the driver script. -/
def sample_financial_data : FinancialData :=
  { current_assets := some 1000000, current_liabilities := some 400000,
    inventory := some 300000, total_debt := some 800000,
    total_assets := some 2000000, ebitda := some 500000,
    debt_service := some 200000, net_income := some 300000,
    ebit := some 400000, interest_expense := some 100000 }

/-- The records of `payment_data` with status `LATE`. -/
def lateRecords (l : List PaymentRecord) : List PaymentRecord :=
  l.filter fun p => p.status == "LATE"

/-- The number of `LATE` records. -/
def lateCount (l : List PaymentRecord) : ℕ := (lateRecords l).length

/-- The number of `MISSED` records. -/
def missedCount (l : List PaymentRecord) : ℕ :=
  (l.filter fun p => p.status == "MISSED").length

/-- The `days_late` values collected from the `LATE` records only. -/
def lateDays (l : List PaymentRecord) : List ℚ :=
  (lateRecords l).map fun p => p.days_late

/-- `average_days_late` as the spec states it: the mean of the `days_late`
values of the `LATE` records, or `0` when there is no `LATE` record. -/
def averageDaysLate (l : List PaymentRecord) : ℚ :=
  if lateDays l = [] then 0 else (lateDays l).sum / (lateDays l).length

/-- `on_time_ratio` as the spec states it. -/
def onTimeRatio (l : List PaymentRecord) : ℚ :=
  ((l.length : ℚ) - lateCount l - missedCount l) / l.length

/-- Equality of `Except` values is decidable when it is for both components
(used to evaluate the pipeline on concrete inputs). -/
instance exceptDecEq {ε α : Type} [DecidableEq ε] [DecidableEq α] :
    DecidableEq (Except ε α) := fun x y =>
  match x, y with
  | .ok a, .ok b =>
      if h : a = b then .isTrue (by rw [h])
      else .isFalse (fun hh => h (Except.ok.inj hh))
  | .error e, .error f =>
      if h : e = f then .isTrue (by rw [h])
      else .isFalse (fun hh => h (Except.error.inj hh))
  | .ok _, .error _ => .isFalse (fun hh => Except.noConfusion hh)
  | .error _, .ok _ => .isFalse (fun hh => Except.noConfusion hh)

/-- Inputs whose category scores are 100, 100, 100 and -0.02, making the
unrounded weighted total 79.996: every ratio scores 100 (zero debt, high
coverage), the single payment is on time, every market indicator sits at the
top of its range, and the qualitative pass-throughs pull the mean to -0.02. -/
def cex_financial_data : FinancialData :=
  { current_assets := some 400, current_liabilities := some 100,
    inventory := some 0, total_debt := some 0, total_assets := some 100,
    ebitda := some 500, debt_service := some 100, net_income := some 100,
    ebit := some 400, interest_expense := some 100 }

/-- A single on-time payment (behavioral score 100). -/
def cex_payment_history : List PaymentRecord :=
  [{ status := "PAID", days_late := 0 }]

/-- Market indicators at the top of every range (market score 100). -/
def cex_market_data : MarketData :=
  { industry_growth_rate := 15, market_share := 30,
    industry_risk_score := 0, economic_indicator := 10 }

/-- Qualitative profile whose mean is -0.02: management_years normalizes to
100 and the out-of-range pass-through -100.08 drags the mean below zero. -/
def cex_qualitative_data : QualitativeData :=
  { management_years := 20, business_model_score := -100.08,
    competitive_position_score := 0, compliance_score := 0 }

/-- All ten required fields are present in the dictionary. -/
def allFieldsPresent (fd : FinancialData) : Prop :=
  fd.current_assets.isSome = true ∧ fd.current_liabilities.isSome = true ∧
  fd.inventory.isSome = true ∧ fd.total_debt.isSome = true ∧
  fd.total_assets.isSome = true ∧ fd.ebitda.isSome = true ∧
  fd.debt_service.isSome = true ∧ fd.net_income.isSome = true ∧
  fd.ebit.isSome = true ∧ fd.interest_expense.isSome = true

/-- None of the four divisors is present with value zero. -/
def divisorsNonzero (fd : FinancialData) : Prop :=
  fd.current_liabilities ≠ some 0 ∧ fd.total_assets ≠ some 0 ∧
  fd.debt_service ≠ some 0 ∧ fd.interest_expense ≠ some 0

/-! Helper lemmas. -/

lemma clampScore_nonneg (x : ℚ) : 0 ≤ clampScore x := le_max_left 0 _

lemma clampScore_le_100 (x : ℚ) : clampScore x ≤ 100 :=
  max_le (by norm_num) (min_le_left _ _)

/-- C2: for every FinancialStatement containing all ten required fields with
nonzero denominators, the Ratio Engine returns exactly the six quotients,
and on the sample data it returns 2.5, 1.75, 0.4, 2.5, 0.15 and 4.0. -/
theorem financial_ratios_spec :
    (∀ (ca cl inv td ta eb ds ni ebt ie : ℚ), cl ≠ 0 → ta ≠ 0 → ds ≠ 0 → ie ≠ 0 →
      calculate_financial_ratios
        { current_assets := some ca, current_liabilities := some cl,
          inventory := some inv, total_debt := some td, total_assets := some ta,
          ebitda := some eb, debt_service := some ds, net_income := some ni,
          ebit := some ebt, interest_expense := some ie } =
      .ok { current_ratio := ca / cl, quick_ratio := (ca - inv) / cl,
            debt_ratio := td / ta, debt_service_coverage := eb / ds,
            return_on_assets := ni / ta, interest_coverage := ebt / ie }) ∧
    calculate_financial_ratios sample_financial_data =
      .ok { current_ratio := 2.5, quick_ratio := 1.75, debt_ratio := 0.4,
            debt_service_coverage := 2.5, return_on_assets := 0.15,
            interest_coverage := 4.0 } := by
  constructor
  · intro ca cl inv td ta eb ds ni ebt ie hcl hta hds hie
    simp [calculate_financial_ratios, getField, divChecked, hcl, hta, hds, hie,
      Bind.bind, Except.bind]
  · norm_num [calculate_financial_ratios, sample_financial_data, getField,
      divChecked, Bind.bind, Except.bind, FinancialRatios.mk.injEq]

/-- C3: the Benchmark Scorer computes the five benchmarked sub-scores by
`clamp(0,100,(1 - value/benchmark)*100)` for `debt_ratio` and
`clamp(0,100,(value/benchmark)*100)` for the other four, takes the category
score as the arithmetic mean of exactly those sub-scores, and every
sub-score and the mean lie within `[0, 100]` for every input. -/
theorem score_financial_ratios_spec :
    ∀ r : FinancialRatios,
      (score_financial_ratios r).2 =
        [("current_ratio", clampScore ((r.current_ratio / 2.0) * 100)),
         ("quick_ratio", clampScore ((r.quick_ratio / 1.0) * 100)),
         ("debt_ratio", clampScore ((1 - r.debt_ratio / 0.5) * 100)),
         ("debt_service_coverage", clampScore ((r.debt_service_coverage / 1.25) * 100)),
         ("return_on_assets", clampScore ((r.return_on_assets / 0.05) * 100))] ∧
      (score_financial_ratios r).1 =
        (((score_financial_ratios r).2).map Prod.snd).sum / 5 ∧
      (∀ p ∈ (score_financial_ratios r).2, 0 ≤ p.2 ∧ p.2 ≤ 100) ∧
      0 ≤ (score_financial_ratios r).1 ∧ (score_financial_ratios r).1 ≤ 100 := by
  intro r
  have h2 : (score_financial_ratios r).2 =
      [("current_ratio", clampScore ((r.current_ratio / 2.0) * 100)),
       ("quick_ratio", clampScore ((r.quick_ratio / 1.0) * 100)),
       ("debt_ratio", clampScore ((1 - r.debt_ratio / 0.5) * 100)),
       ("debt_service_coverage", clampScore ((r.debt_service_coverage / 1.25) * 100)),
       ("return_on_assets", clampScore ((r.return_on_assets / 0.05) * 100))] := rfl
  have h1 : (score_financial_ratios r).1 =
      (((score_financial_ratios r).2).map Prod.snd).sum / 5 := by
    have h0 : (score_financial_ratios r).1 =
        listMean (((score_financial_ratios r).2).map Prod.snd) := rfl
    rw [h0, h2]; simp [listMean]
  have b1 := clampScore_nonneg ((r.current_ratio / 2.0) * 100)
  have b2 := clampScore_nonneg ((r.quick_ratio / 1.0) * 100)
  have b3 := clampScore_nonneg ((1 - r.debt_ratio / 0.5) * 100)
  have b4 := clampScore_nonneg ((r.debt_service_coverage / 1.25) * 100)
  have b5 := clampScore_nonneg ((r.return_on_assets / 0.05) * 100)
  have c1 := clampScore_le_100 ((r.current_ratio / 2.0) * 100)
  have c2 := clampScore_le_100 ((r.quick_ratio / 1.0) * 100)
  have c3 := clampScore_le_100 ((1 - r.debt_ratio / 0.5) * 100)
  have c4 := clampScore_le_100 ((r.debt_service_coverage / 1.25) * 100)
  have c5 := clampScore_le_100 ((r.return_on_assets / 0.05) * 100)
  refine ⟨h2, h1, ?_, ?_, ?_⟩
  · rw [h2]
    intro p hp
    simp only [List.mem_cons, List.not_mem_nil, or_false] at hp
    rcases hp with h | h | h | h | h <;> subst h <;>
      exact ⟨clampScore_nonneg _, clampScore_le_100 _⟩
  · rw [h1, h2]
    simp only [List.map_cons, List.map_nil, List.sum_cons, List.sum_nil]
    linarith
  · rw [h1, h2]
    simp only [List.map_cons, List.map_nil, List.sum_cons, List.sum_nil]
    linarith

/-- C8: the Qualitative Evaluator normalizes `management_years` linearly over
`[0, 20]` with clamping, passes the other three sub-scores through unmodified,
returns the mean of the four values, and for a profile with a pass-through
sub-score above 100 the category score exceeds 100. -/
theorem qualitative_factors_spec :
    (∀ q : QualitativeData,
       evaluate_qualitative_factors q =
         ((normalize_score q.management_years 0 20 + q.business_model_score +
           q.competitive_position_score + q.compliance_score) / 4,
          { management_experience := normalize_score q.management_years 0 20,
            business_model := q.business_model_score,
            competitive_position := q.competitive_position_score,
            regulatory_compliance := q.compliance_score })) ∧
    (∀ y : ℚ, 0 ≤ normalize_score y 0 20 ∧ normalize_score y 0 20 ≤ 100) ∧
    100 < (evaluate_qualitative_factors
      { management_years := 20, business_model_score := 200,
        competitive_position_score := 100, compliance_score := 100 }).1 := by
  refine ⟨?_, ?_, ?_⟩
  · intro q
    refine Prod.ext ?_ rfl
    show listMean _ = _
    simp only [listMean, List.sum_cons, List.sum_nil, List.length_cons,
      List.length_nil]
    ring_nf
  · intro y
    exact ⟨le_max_left _ _, max_le (by norm_num) (min_le_left _ _)⟩
  · norm_num [evaluate_qualitative_factors, normalize_score, listMean]

lemma foldl_tallyStep (l : List PaymentRecord) (a b : ℕ) (ds : List ℚ) :
    l.foldl tallyStep (a, b, ds) =
      (a + lateCount l, b + missedCount l, ds ++ lateDays l) := by
  induction l generalizing a b ds with
  | nil => simp [lateCount, missedCount, lateDays, lateRecords]
  | cons p t ih =>
    simp only [List.foldl_cons, tallyStep]
    by_cases hl : p.status = "LATE"
    · rw [if_pos hl, ih]
      simp [lateCount, missedCount, lateDays, lateRecords, List.filter_cons, hl,
        Prod.mk.injEq]
      omega
    · rw [if_neg hl]
      by_cases hm : p.status = "MISSED"
      · rw [if_pos hm, ih]
        simp [lateCount, missedCount, lateDays, lateRecords, List.filter_cons,
          hl, hm, Prod.mk.injEq]
        omega
      · rw [if_neg hm, ih]
        simp [lateCount, missedCount, lateDays, lateRecords, List.filter_cons,
          hl, hm]

lemma analyze_payment_history_eq (l : List PaymentRecord) (hl : l ≠ []) :
    analyze_payment_history l =
      .ok (clampScore (onTimeRatio l * 100 - averageDaysLate l * 0.5),
        { late_payments := lateCount l, average_days_late := averageDaysLate l,
          missed_payments := missedCount l, total_payments := l.length }) := by
  simp only [analyze_payment_history, if_neg hl, foldl_tallyStep,
    Nat.zero_add, List.nil_append]
  simp [averageDaysLate, onTimeRatio, listMean]

lemma cast_length_ne_zero (l : List PaymentRecord) (hl : l ≠ []) :
    (l.length : ℚ) ≠ 0 := by
  have h : l.length ≠ 0 := (List.length_pos.mpr hl).ne'
  exact_mod_cast h

lemma analyze_no_late_no_missed (l : List PaymentRecord) (hl : l ≠ [])
    (h : ∀ p ∈ l, p.status ≠ "LATE" ∧ p.status ≠ "MISSED") :
    analyze_payment_history l =
      .ok (100, { late_payments := 0, average_days_late := 0,
                  missed_payments := 0, total_payments := l.length }) := by
  have hlate : lateRecords l = [] := by
    refine List.filter_eq_nil_iff.mpr ?_
    intro p hp
    simp [(h p hp).1]
  have hmiss : (l.filter fun p => p.status == "MISSED") = [] := by
    refine List.filter_eq_nil_iff.mpr ?_
    intro p hp
    simp [(h p hp).2]
  have hn : (l.length : ℚ) ≠ 0 := cast_length_ne_zero l hl
  rw [analyze_payment_history_eq l hl]
  have h1 : lateCount l = 0 := by simp [lateCount, hlate]
  have h2 : missedCount l = 0 := by simp [missedCount, hmiss]
  have h3 : averageDaysLate l = 0 := by simp [averageDaysLate, lateDays, hlate]
  have h4 : onTimeRatio l = 1 := by
    rw [onTimeRatio, h1, h2]
    simp [div_self hn]
  rw [h1, h2, h3, h4]
  norm_num [clampScore]

/-- C4: for every non-empty payment history the behavioral score is
`clamp(0,100, on_time_ratio*100 - average_days_late*0.5)` where the average
is over the `days_late` of the `LATE` records only (0 with no `LATE` record,
`MISSED` records contributing nothing) and
`on_time_ratio = (total - late - missed)/total`; an all-`PAID` history of any
length scores exactly 100, and an all-`MISSED` history has `on_time_ratio` 0
and behavioral score 0. -/
theorem analyze_payment_history_spec :
    (∀ l : List PaymentRecord, l ≠ [] →
       analyze_payment_history l =
         .ok (clampScore (onTimeRatio l * 100 - averageDaysLate l * 0.5),
           { late_payments := lateCount l, average_days_late := averageDaysLate l,
             missed_payments := missedCount l, total_payments := l.length })) ∧
    (∀ l : List PaymentRecord, l ≠ [] → (∀ p ∈ l, p.status = "PAID") →
       analyze_payment_history l =
         .ok (100, { late_payments := 0, average_days_late := 0,
                     missed_payments := 0, total_payments := l.length })) ∧
    (∀ l : List PaymentRecord, l ≠ [] → (∀ p ∈ l, p.status = "MISSED") →
       onTimeRatio l = 0 ∧
       (analyze_payment_history l).map Prod.fst = .ok 0) := by
  refine ⟨analyze_payment_history_eq, ?_, ?_⟩
  · intro l hl hp
    refine analyze_no_late_no_missed l hl ?_
    intro p hpl
    rw [hp p hpl]
    constructor <;> decide
  · intro l hl hm
    have hlate : lateRecords l = [] := by
      refine List.filter_eq_nil_iff.mpr ?_
      intro p hp
      simp [hm p hp]
    have hmiss : (l.filter fun p => p.status == "MISSED") = l := by
      refine List.filter_eq_self.mpr ?_
      intro p hp
      simp [hm p hp]
    have h1 : lateCount l = 0 := by simp [lateCount, hlate]
    have h2 : missedCount l = l.length := by simp [missedCount, hmiss]
    have h3 : averageDaysLate l = 0 := by simp [averageDaysLate, lateDays, hlate]
    have h4 : onTimeRatio l = 0 := by
      rw [onTimeRatio, h1, h2]
      simp
    refine ⟨h4, ?_⟩
    rw [analyze_payment_history_eq l hl, h4, h3]
    norm_num [clampScore, Except.map]

/-- C10: the Behavioral Analyzer does not validate the status field: every
record whose status is neither `LATE` nor `MISSED` (`PAID`, but equally any
unrecognized string) counts as on-time, so a non-empty history made only of
such records scores exactly 100. -/
theorem status_validation_spec (l : List PaymentRecord) (hl : l ≠ [])
    (h : ∀ p ∈ l, p.status ≠ "LATE" ∧ p.status ≠ "MISSED") :
    analyze_payment_history l =
      .ok (100, { late_payments := 0, average_days_late := 0,
                  missed_payments := 0, total_payments := l.length }) :=
  analyze_no_late_no_missed l hl h

/-- C10 witness: a history made of one record with the unrecognized status
`PENDING` scores 100. -/
theorem status_validation_witness :
    analyze_payment_history [{ status := "PENDING", days_late := 3 }] =
      .ok (100, { late_payments := 0, average_days_late := 0,
                  missed_payments := 0, total_payments := 1 }) :=
  status_validation_spec [{ status := "PENDING", days_late := 3 }]
    (by simp) (by simp)

lemma calculate_ratios_ok (ca cl inv td ta eb ds ni ebt ie : ℚ)
    (hcl : cl ≠ 0) (hta : ta ≠ 0) (hds : ds ≠ 0) (hie : ie ≠ 0) :
    calculate_financial_ratios
      { current_assets := some ca, current_liabilities := some cl,
        inventory := some inv, total_debt := some td, total_assets := some ta,
        ebitda := some eb, debt_service := some ds, net_income := some ni,
        ebit := some ebt, interest_expense := some ie } =
    .ok { current_ratio := ca / cl, quick_ratio := (ca - inv) / cl,
          debt_ratio := td / ta, debt_service_coverage := eb / ds,
          return_on_assets := ni / ta, interest_coverage := ebt / ie } := by
  simp [calculate_financial_ratios, getField, divChecked, hcl, hta, hds, hie,
    Bind.bind, Except.bind]

lemma calculate_ratios_invalid (fd : FinancialData)
    (h : ¬ (allFieldsPresent fd ∧ divisorsNonzero fd)) :
    (∃ f, calculate_financial_ratios fd = .error (.missingField f) ∧
      fieldValue fd f = none) ∨
    calculate_financial_ratios fd = .error .divisionByZero := by
  obtain ⟨ca, cl, inv, td, ta, eb, ds, ni, ebt, ie⟩ := fd
  cases ca with
  | none => exact .inl ⟨.current_assets, rfl, rfl⟩
  | some ca =>
  cases cl with
  | none => exact .inl ⟨.current_liabilities, rfl, rfl⟩
  | some cl =>
  by_cases hcl : cl = 0
  · subst hcl
    exact .inr (by simp [calculate_financial_ratios, getField, divChecked,
      Bind.bind, Except.bind])
  cases inv with
  | none =>
    exact .inl ⟨.inventory, by simp [calculate_financial_ratios, getField,
      divChecked, hcl, Bind.bind, Except.bind], rfl⟩
  | some inv =>
  cases td with
  | none =>
    exact .inl ⟨.total_debt, by simp [calculate_financial_ratios, getField,
      divChecked, hcl, Bind.bind, Except.bind], rfl⟩
  | some td =>
  cases ta with
  | none =>
    exact .inl ⟨.total_assets, by simp [calculate_financial_ratios, getField,
      divChecked, hcl, Bind.bind, Except.bind], rfl⟩
  | some ta =>
  by_cases hta : ta = 0
  · subst hta
    exact .inr (by simp [calculate_financial_ratios, getField, divChecked,
      hcl, Bind.bind, Except.bind])
  cases eb with
  | none =>
    exact .inl ⟨.ebitda, by simp [calculate_financial_ratios, getField,
      divChecked, hcl, hta, Bind.bind, Except.bind], rfl⟩
  | some eb =>
  cases ds with
  | none =>
    exact .inl ⟨.debt_service, by simp [calculate_financial_ratios, getField,
      divChecked, hcl, hta, Bind.bind, Except.bind], rfl⟩
  | some ds =>
  by_cases hds : ds = 0
  · subst hds
    exact .inr (by simp [calculate_financial_ratios, getField, divChecked,
      hcl, hta, Bind.bind, Except.bind])
  cases ni with
  | none =>
    exact .inl ⟨.net_income, by simp [calculate_financial_ratios, getField,
      divChecked, hcl, hta, hds, Bind.bind, Except.bind], rfl⟩
  | some ni =>
  cases ebt with
  | none =>
    exact .inl ⟨.ebit, by simp [calculate_financial_ratios, getField,
      divChecked, hcl, hta, hds, Bind.bind, Except.bind], rfl⟩
  | some ebt =>
  cases ie with
  | none =>
    exact .inl ⟨.interest_expense, by simp [calculate_financial_ratios,
      getField, divChecked, hcl, hta, hds, Bind.bind, Except.bind], rfl⟩
  | some ie =>
  by_cases hie : ie = 0
  · subst hie
    exact .inr (by simp [calculate_financial_ratios, getField, divChecked,
      hcl, hta, hds, Bind.bind, Except.bind])
  exact absurd ⟨by simp [allFieldsPresent],
    by simp [divisorsNonzero, hcl, hta, hds, hie]⟩ h

lemma calculate_ratios_ok_of_valid (fd : FinancialData)
    (hall : allFieldsPresent fd) (hdiv : divisorsNonzero fd) :
    ∃ r, calculate_financial_ratios fd = .ok r := by
  obtain ⟨f1, f2, f3, f4, f5, f6, f7, f8, f9, f10⟩ := fd
  simp only [allFieldsPresent, Option.isSome_iff_exists] at hall
  obtain ⟨⟨ca, rfl⟩, ⟨cl, rfl⟩, ⟨inv, rfl⟩, ⟨td, rfl⟩, ⟨ta, rfl⟩, ⟨eb, rfl⟩,
    ⟨ds, rfl⟩, ⟨ni, rfl⟩, ⟨ebt, rfl⟩, ⟨ie, rfl⟩⟩ := hall
  simp only [divisorsNonzero, Ne, Option.some.injEq] at hdiv
  exact ⟨_, calculate_ratios_ok ca cl inv td ta eb ds ni ebt ie
    hdiv.1 hdiv.2.1 hdiv.2.2.1 hdiv.2.2.2⟩

/-- C6: the pipeline fails (with the spec's `InvalidInputError`) in exactly
these cases: a required financial field is absent (the error reports which
field, and that field is indeed missing), a divisor is zero, or the payment
history is empty; under valid inputs no error branch is reachable, and an
error in a component is surfaced unchanged by the entry point, never
recovered. -/
theorem invalid_input_spec :
    (∀ fd : FinancialData,
       (∃ r, calculate_financial_ratios fd = .ok r) ↔
         allFieldsPresent fd ∧ divisorsNonzero fd) ∧
    (∀ (fd : FinancialData) (f : FieldName),
       calculate_financial_ratios fd = .error (.missingField f) →
         fieldValue fd f = none) ∧
    (∀ (fd : FinancialData) (e : CreditError),
       calculate_financial_ratios fd = .error e →
         (∃ f, e = .missingField f) ∨ e = .divisionByZero) ∧
    (∀ l : List PaymentRecord,
       (∃ b, analyze_payment_history l = .ok b) ↔ l ≠ []) ∧
    (analyze_payment_history [] = .error .emptyPaymentHistory) ∧
    (∀ cn fd pl md qd e, calculate_financial_ratios fd = .error e →
       assess_credit_risk cn fd pl md qd = .error e) ∧
    (∀ cn fd pl md qd r e, calculate_financial_ratios fd = .ok r →
       analyze_payment_history pl = .error e →
       assess_credit_risk cn fd pl md qd = .error e) := by
  refine ⟨?_, ?_, ?_, ?_, rfl, ?_, ?_⟩
  · intro fd
    constructor
    · rintro ⟨r, hr⟩
      by_contra hv
      rcases calculate_ratios_invalid fd hv with ⟨f, hf, _⟩ | hf <;>
        rw [hf] at hr <;> exact Except.noConfusion hr
    · rintro ⟨hall, hdiv⟩
      exact calculate_ratios_ok_of_valid fd hall hdiv
  · intro fd f hf
    by_cases hv : allFieldsPresent fd ∧ divisorsNonzero fd
    · obtain ⟨r, hr⟩ := calculate_ratios_ok_of_valid fd hv.1 hv.2
      rw [hf] at hr
      exact Except.noConfusion hr
    · rcases calculate_ratios_invalid fd hv with ⟨g, hg, hgnone⟩ | hg
      · rw [hg] at hf
        obtain rfl : g = f := by
          injection hf with h
          injection h
        exact hgnone
      · rw [hg] at hf
        injection hf with h
        exact CreditError.noConfusion h
  · intro fd e he
    by_cases hv : allFieldsPresent fd ∧ divisorsNonzero fd
    · obtain ⟨r, hr⟩ := calculate_ratios_ok_of_valid fd hv.1 hv.2
      rw [he] at hr
      exact Except.noConfusion hr
    · rcases calculate_ratios_invalid fd hv with ⟨g, hg, _⟩ | hg <;>
        rw [hg] at he
      · injection he with h
        exact .inl ⟨g, h.symm⟩
      · injection he with h
        exact .inr h.symm
  · intro l
    constructor
    · rintro ⟨b, hb⟩ rfl
      exact Except.noConfusion hb
    · intro hl
      exact ⟨_, analyze_payment_history_eq l hl⟩
  · intro cn fd pl md qd e he
    simp [assess_credit_risk, he, Bind.bind, Except.bind]
  · intro cn fd pl md qd r e hr he
    simp [assess_credit_risk, hr, he, Bind.bind, Except.bind]

lemma cex_ratios_eq :
    calculate_financial_ratios cex_financial_data =
      .ok { current_ratio := 4, quick_ratio := 4, debt_ratio := 0,
            debt_service_coverage := 5, return_on_assets := 1,
            interest_coverage := 4 } := by
  norm_num [cex_financial_data, calculate_financial_ratios, getField,
    divChecked, Bind.bind, Except.bind, FinancialRatios.mk.injEq]

lemma cex_behavioral_eq :
    analyze_payment_history cex_payment_history =
      .ok (100, { late_payments := 0, average_days_late := 0,
                  missed_payments := 0, total_payments := 1 }) :=
  analyze_no_late_no_missed cex_payment_history (by simp [cex_payment_history])
    (by simp [cex_payment_history])

lemma score_financial_ratios_eq (r : FinancialRatios) :
    score_financial_ratios r =
      (listMean [clampScore ((r.current_ratio / 2.0) * 100),
                 clampScore ((r.quick_ratio / 1.0) * 100),
                 clampScore ((1 - r.debt_ratio / 0.5) * 100),
                 clampScore ((r.debt_service_coverage / 1.25) * 100),
                 clampScore ((r.return_on_assets / 0.05) * 100)],
       [("current_ratio", clampScore ((r.current_ratio / 2.0) * 100)),
        ("quick_ratio", clampScore ((r.quick_ratio / 1.0) * 100)),
        ("debt_ratio", clampScore ((1 - r.debt_ratio / 0.5) * 100)),
        ("debt_service_coverage", clampScore ((r.debt_service_coverage / 1.25) * 100)),
        ("return_on_assets", clampScore ((r.return_on_assets / 0.05) * 100))]) := rfl

lemma cex_assessment_eq :
    assess_credit_risk "Cex" cex_financial_data cex_payment_history
        cex_market_data cex_qualitative_data =
      .ok { client_name := "Cex", total_score := 80,
            risk_rating := "MEDIUM RISK",
            component_scores :=
              { financial_score := 100, behavioral_score := 100,
                market_score := 100, qualitative_score := -0.02 },
            financial_analysis :=
              [("current_ratio", 100), ("quick_ratio", 100), ("debt_ratio", 100),
               ("debt_service_coverage", 100), ("return_on_assets", 100)],
            financial_ratios :=
              { current_ratio := 4, quick_ratio := 4, debt_ratio := 0,
                debt_service_coverage := 5, return_on_assets := 1,
                interest_coverage := 4 },
            behavioral_analysis :=
              { late_payments := 0, average_days_late := 0,
                missed_payments := 0, total_payments := 1 },
            market_analysis :=
              { industry_growth := 100, market_position := 100,
                industry_risk := 100, economic_conditions := 100 },
            qualitative_analysis :=
              { management_experience := 100, business_model := -100.08,
                competitive_position := 0, regulatory_compliance := 0 } } := by
  simp only [assess_credit_risk, cex_ratios_eq, cex_behavioral_eq,
    Bind.bind, Except.bind, score_financial_ratios_eq]
  norm_num [clampScore, listMean, assess_market_conditions,
    normalize_score, cex_market_data, evaluate_qualitative_factors,
    cex_qualitative_data, totalScore, weights, round2, round_eq,
    generate_risk_rating, risk_thresholds, min_def, max_def,
    Prod.mk.injEq, Assessment.mk.injEq, ComponentScores.mk.injEq,
    MarketAnalysis.mk.injEq, QualitativeAnalysis.mk.injEq]

/-- C1 counterexample: with these inputs the unrounded weighted sum of the
category scores (100, 100, 100, -0.02) is 79.996. The assessment stores
`total_score = 80.00` (rounded to two decimals) with
`risk_rating = "MEDIUM RISK"`: the stored total score is not the weighted
sum of the category scores, and a total score of 80 is paired with MEDIUM
RISK, contradicting the claim's `80 -> LOW RISK` reading of the fields. -/
theorem total_score_rounding_counterexample :
    (assess_credit_risk "Cex" cex_financial_data cex_payment_history
        cex_market_data cex_qualitative_data).map
      (fun a => (a.total_score, a.risk_rating, a.component_scores)) =
    .ok (80, "MEDIUM RISK",
      { financial_score := 100, behavioral_score := 100,
        market_score := 100, qualitative_score := -0.02 }) ∧
    totalScore 100 100 100 (-0.02) ≠ 80 := by
  constructor
  · rw [cex_assessment_eq]
    rfl
  · norm_num [totalScore, weights]

/-- C1 (amended): the assessment's stored total score is the weighted sum
`0.35*financial + 0.25*behavioral + 0.20*market + 0.20*qualitative` of the
unrounded category scores, rounded to two decimals, and the risk rating is
obtained from the unrounded weighted sum by inclusive lower-bound thresholds
evaluated in descending order (>= 80 LOW, >= 60 MEDIUM, >= 40 HIGH, else
VERY HIGH), with the boundary examples holding for that unrounded score. -/
theorem total_score_and_rating_spec :
    (∀ f b m q : ℚ,
       totalScore f b m q = f * 0.35 + b * 0.25 + m * 0.20 + q * 0.20) ∧
    (∀ cn fd pl md qd r b a,
       calculate_financial_ratios fd = .ok r →
       analyze_payment_history pl = .ok b →
       assess_credit_risk cn fd pl md qd = .ok a →
       a.total_score = round2 (totalScore (score_financial_ratios r).1 b.1
         (assess_market_conditions md).1 (evaluate_qualitative_factors qd).1) ∧
       a.risk_rating = generate_risk_rating
         (totalScore (score_financial_ratios r).1 b.1
           (assess_market_conditions md).1 (evaluate_qualitative_factors qd).1)) ∧
    (∀ s : ℚ, (80 ≤ s → generate_risk_rating s = "LOW RISK") ∧
       (60 ≤ s → s < 80 → generate_risk_rating s = "MEDIUM RISK") ∧
       (40 ≤ s → s < 60 → generate_risk_rating s = "HIGH RISK") ∧
       (s < 40 → generate_risk_rating s = "VERY HIGH RISK")) ∧
    generate_risk_rating 80 = "LOW RISK" ∧
    generate_risk_rating 79.99 = "MEDIUM RISK" ∧
    generate_risk_rating 60 = "MEDIUM RISK" ∧
    generate_risk_rating 39.99 = "VERY HIGH RISK" := by
  refine ⟨?_, ?_, ?_,
    by norm_num [generate_risk_rating, risk_thresholds],
    by norm_num [generate_risk_rating, risk_thresholds],
    by norm_num [generate_risk_rating, risk_thresholds],
    by norm_num [generate_risk_rating, risk_thresholds]⟩
  · intro f b m q
    simp [totalScore, weights]
  · intro cn fd pl md qd r b a hr hb ha
    simp only [assess_credit_risk, hr, hb, Bind.bind, Except.bind,
      Except.ok.injEq] at ha
    subst ha
    exact ⟨rfl, rfl⟩
  · intro s
    simp only [generate_risk_rating, risk_thresholds]
    refine ⟨fun h => if_pos h, fun h1 h2 => ?_, fun h1 h2 => ?_, fun h => ?_⟩
    · rw [if_neg (by exact not_le.mpr h2), if_pos h1]
    · rw [if_neg (by exact not_le.mpr (by linarith)),
        if_neg (by exact not_le.mpr h2), if_pos h1]
    · rw [if_neg (by exact not_le.mpr (by linarith)),
        if_neg (by exact not_le.mpr (by linarith)),
        if_neg (by exact not_le.mpr h)]

lemma recommendation_matches_rounded_rating (a : Assessment) :
    generate_recommendation_text a =
      recommendation_of_rating (generate_risk_rating a.total_score) := by
  by_cases h1 : risk_thresholds.low ≤ a.total_score
  · simp [generate_recommendation_text, generate_risk_rating,
      recommendation_of_rating, h1]
  · by_cases h2 : risk_thresholds.medium ≤ a.total_score
    · simp [generate_recommendation_text, generate_risk_rating,
        recommendation_of_rating, h1, h2]
    · by_cases h3 : risk_thresholds.high ≤ a.total_score
      · simp [generate_recommendation_text, generate_risk_rating,
          recommendation_of_rating, h1, h2, h3]
      · simp [generate_recommendation_text, generate_risk_rating,
          recommendation_of_rating, h1, h2, h3]

/-- C7 counterexample: on these inputs the assessment's `risk_rating` is
MEDIUM RISK (computed from the unrounded weighted sum 79.996) while the
recommendation is the standard-terms string of the LOW RISK tier (selected
from the stored total score 80.00): the recommendation tier disagrees with
the `risk_rating` field. -/
theorem recommendation_disagreement_counterexample :
    (assess_credit_risk "Cex" cex_financial_data cex_payment_history
        cex_market_data cex_qualitative_data).map
      (fun a => (a.risk_rating, generate_recommendation_text a)) =
    .ok ("MEDIUM RISK",
      "Recommended for approval with standard terms and conditions.") ∧
    recommendation_of_rating "MEDIUM RISK" ≠
      "Recommended for approval with standard terms and conditions." := by
  constructor
  · rw [cex_assessment_eq]
    norm_num [Except.map, generate_recommendation_text, risk_thresholds]
  · decide

/-- C7 (amended): the recommendation text is a fixed string selected from
the assessment's stored (rounded) total score by the same four thresholds as
the risk rating, so it always agrees with the risk tier of the stored total
score; it agrees with the Assessment's `risk_rating` field whenever that
field (computed from the unrounded weighted sum) matches the tier of the
stored score, which rounding across a threshold can break. -/
theorem recommendation_spec :
    (∀ a : Assessment, generate_recommendation_text a =
       recommendation_of_rating (generate_risk_rating a.total_score)) ∧
    (∀ cn fd pl md qd a, assess_credit_risk cn fd pl md qd = .ok a →
       generate_risk_rating a.total_score = a.risk_rating →
       generate_recommendation_text a = recommendation_of_rating a.risk_rating) := by
  refine ⟨recommendation_matches_rounded_rating, ?_⟩
  intro cn fd pl md qd a _ hagree
  rw [← hagree]
  exact recommendation_matches_rounded_rating a

/-- C9: `interest_coverage`, the only ratio without a benchmark entry, is
excluded from the Benchmark Scorer's sub-scores and hence from the category
mean (the scored names are exactly the five benchmarked ratios), while the
full ratio record, `interest_coverage` included, is retained in the
assessment's detail output. -/
theorem interest_coverage_spec :
    (∀ r : FinancialRatios,
       ((score_financial_ratios r).2).lookup "interest_coverage" = none ∧
       ((score_financial_ratios r).2).map Prod.fst =
         ["current_ratio", "quick_ratio", "debt_ratio",
          "debt_service_coverage", "return_on_assets"] ∧
       (score_financial_ratios r).1 =
         listMean (((score_financial_ratios r).2).map Prod.snd)) ∧
    (∀ cn fd pl md qd r a,
       calculate_financial_ratios fd = .ok r →
       assess_credit_risk cn fd pl md qd = .ok a →
       a.financial_ratios = r) := by
  constructor
  · intro r
    exact ⟨rfl, rfl, rfl⟩
  · intro cn fd pl md qd r a hr ha
    cases hb : analyze_payment_history pl with
    | error e =>
      simp [assess_credit_risk, hr, hb, Bind.bind, Except.bind] at ha
    | ok b =>
      simp only [assess_credit_risk, hr, hb, Bind.bind, Except.bind,
        Except.ok.injEq] at ha
      subst ha
      rfl

lemma pd_pos_lt_one (s : ℝ) :
    0 < calculate_probability_of_default s ∧
      calculate_probability_of_default s < 1 := by
  have he := Real.exp_pos (-0.1 * (100 - s))
  have hd : 0 < 1 + Real.exp (-0.1 * (100 - s)) := by linarith
  constructor
  · exact div_pos one_pos hd
  · rw [calculate_probability_of_default, div_lt_one hd]
    linarith

lemma pd_strict_anti (s t : ℝ) (h : s < t) :
    calculate_probability_of_default t < calculate_probability_of_default s := by
  have harg : (-0.1 : ℝ) * (100 - s) < -0.1 * (100 - t) := by nlinarith
  have hexp := Real.exp_lt_exp.mpr harg
  have hds : 0 < 1 + Real.exp (-0.1 * (100 - s)) := by positivity
  simp only [calculate_probability_of_default]
  apply one_div_lt_one_div_of_lt hds
  linarith

lemma pd_reported_bounds (s : ℝ) : 0 ≤ pd_reported s ∧ pd_reported s ≤ 100 := by
  obtain ⟨h0, h1⟩ := pd_pos_lt_one s
  simp only [pd_reported, roundR2, round_eq]
  have hx0 : (0:ℝ) ≤ calculate_probability_of_default s * 100 * 100 + 1/2 := by
    nlinarith
  have hx1 : calculate_probability_of_default s * 100 * 100 + 1/2 < 10001 := by
    nlinarith
  have hf0 : (0:ℤ) ≤ ⌊calculate_probability_of_default s * 100 * 100 + 1/2⌋ :=
    Int.le_floor.mpr (by exact_mod_cast hx0)
  have hf1 : ⌊calculate_probability_of_default s * 100 * 100 + 1/2⌋ < 10001 :=
    Int.floor_lt.mpr (by exact_mod_cast hx1)
  constructor
  · apply div_nonneg _ (by norm_num : (0:ℝ) ≤ 100)
    exact_mod_cast hf0
  · rw [div_le_iff₀ (by norm_num : (0:ℝ) < 100)]
    have hle : ⌊calculate_probability_of_default s * 100 * 100 + 1/2⌋ ≤ 10000 := by
      omega
    have : (⌊calculate_probability_of_default s * 100 * 100 + 1/2⌋ : ℝ) ≤ 10000 := by
      exact_mod_cast hle
    linarith

lemma exp_ten_gt : (19999 : ℝ) < Real.exp 10 := by
  have h1 : (2.7182818283 : ℝ) < Real.exp 1 := Real.exp_one_gt_d9
  have h10 : Real.exp 10 = Real.exp 1 ^ 10 := by
    rw [← Real.exp_nat_mul]
    norm_num
  have h2 : (2.7182818283 : ℝ) ^ 10 < Real.exp 1 ^ 10 :=
    pow_lt_pow_left₀ h1 (by norm_num) (by norm_num)
  have h3 : (19999 : ℝ) < (2.7182818283 : ℝ) ^ 10 := by norm_num
  rw [h10]
  linarith

/-- C5 counterexample: at total score 0 the probability of default is
1/(1 + e^(-10)) = 0.99995460..., whose percentage 99.995460... rounds to
100.00 at two decimals: the value reported in the Assessment is not
strictly inside (0, 100). Total score 0 is reachable with inputs that
satisfy every data-model invariant (all four category scores 0). -/
theorem reported_pd_counterexample : pd_reported 0 = 100 := by
  have hepos : (0:ℝ) < Real.exp (-10) := Real.exp_pos _
  have hlt : Real.exp (-10) < 1 / 19999 := by
    rw [Real.exp_neg, inv_eq_one_div]
    exact one_div_lt_one_div_of_lt (by norm_num) exp_ten_gt
  have harg : (-0.1 : ℝ) * (100 - 0) = -10 := by norm_num
  have hx : pd_reported 0 =
      (↑(round (1 / (1 + Real.exp (-10)) * 100 * 100)) : ℝ) / 100 := by
    simp only [pd_reported, roundR2, calculate_probability_of_default, harg]
  have hd : (0:ℝ) < 1 + Real.exp (-10) := by linarith
  have hlb : (9999.5 : ℝ) ≤ 1 / (1 + Real.exp (-10)) * 100 * 100 := by
    rw [div_mul_eq_mul_div, div_mul_eq_mul_div, le_div_iff₀ hd]
    nlinarith
  have hub : 1 / (1 + Real.exp (-10)) * 100 * 100 < 10000.5 := by
    rw [div_mul_eq_mul_div, div_mul_eq_mul_div, div_lt_iff₀ hd]
    nlinarith
  have hround : round (1 / (1 + Real.exp (-10)) * 100 * 100) = 10000 := by
    rw [round_eq]
    refine Int.floor_eq_iff.mpr ⟨?_, ?_⟩
    · push_cast
      linarith
    · push_cast
      linarith
  rw [hx, hround]
  norm_num

/-- C5 (amended): the probability of default 1/(1 + e^(-0.1*(100-s))) is
strictly decreasing in the total score s; at s = 100 it equals exactly 1/2
(reported as 50.00 percent); for every score its percentage pd*100 lies
strictly within (0, 100); the percentage reported in the Assessment rounds
it to two decimals and therefore lies in [0, 100], but can reach an
endpoint (see the counterexample at s = 0). -/
theorem probability_of_default_spec :
    (∀ s t : ℝ, s < t →
       calculate_probability_of_default t < calculate_probability_of_default s) ∧
    calculate_probability_of_default 100 = 1 / 2 ∧
    pd_reported 100 = 50 ∧
    (∀ s : ℝ, 0 < calculate_probability_of_default s * 100 ∧
       calculate_probability_of_default s * 100 < 100) ∧
    (∀ s : ℝ, 0 ≤ pd_reported s ∧ pd_reported s ≤ 100) := by
  have h100 : calculate_probability_of_default 100 = 1 / 2 := by
    simp only [calculate_probability_of_default]
    norm_num [Real.exp_zero]
  refine ⟨pd_strict_anti, h100, ?_, ?_, pd_reported_bounds⟩
  · simp only [pd_reported, roundR2, h100]
    norm_num [round_eq]
  · intro s
    obtain ⟨h0, h1⟩ := pd_pos_lt_one s
    constructor <;> nlinarith

end CreditRisk
